import Mathlib

/-!
Verification of the DebugAgent control-flow core: a shallow embedding of the
tool dispatcher (agent/tools/__init__.py), the driver loop (agent/agent.py),
the log-query convenience operation (agent/tools/gcp_logging.py) and the
repository commit operation (agent/tools/github.py), together with theorems
settling the specified properties.  External collaborators (the OpenAI model,
the Cloud Logging client, the PyGithub repository object, json.loads /
json.dumps and the system clock) are modelled as explicit oracles at their
call boundary; everything on this side of that boundary is translated from
the Python source.
-/

/-- JSON-like values carried in a parsed tool-call argument mapping. -/
inductive JValue where
  | str (s : String)
  | int (n : Int)
  | bool (b : Bool)
  | null
deriving Repr, DecidableEq

/-- Argument mapping produced by json.loads on a tool call's raw argument text
(a Python dict of primitive values). -/
abbrev Args := List (String × JValue)

/-- Failures a handler body can raise inside dispatch's try block: a KeyError
from a missing required argument (args[key]), or any failure raised by the
external service call.  exnMessage renders str(e) as dispatch interpolates it. -/
inductive Exn where
  | keyError (key : String)
  | failure (msg : String)
deriving Repr, DecidableEq

/-- Python str(e): str of KeyError(k) is the repr of the key, the quoted key. -/
def exnMessage : Exn → String
  | .keyError k => "'" ++ k ++ "'"
  | .failure m => m

/-- Escaping applied by json.dumps to a string value (backslash and quote;
control characters do not occur in the payloads the claims mention). -/
def escapeJsonChar (c : Char) : String :=
  if c = '\\' then "\\\\" else if c = '"' then "\\\"" else String.singleton c

/-- Escape a whole string as json.dumps renders it between quotes. -/
def escapeJson (s : String) : String :=
  String.join (s.toList.map escapeJsonChar)

/-- Rendering of json.dumps on the one-key error object both the dispatcher and
the github handlers build: the structured error payload. -/
def errorPayload (msg : String) : String :=
  "\x7b\"error\": \"" ++ escapeJson msg ++ "\"\x7d"

/-- Configuration mapping loaded from the environment (agent/config.py): the six
required keys, each a non-empty string by the time load_config returns. -/
structure Config where
  OPENAI_API_KEY : String
  GCP_PROJECT_ID : String
  GCP_FUNCTION_NAME : String
  GCP_SA_KEY_BASE64 : String
  GITHUB_TOKEN : String
  GITHUB_REPO : String
deriving Repr, DecidableEq

/-- External frontier of the seven tool handler bodies as the dispatcher calls
them (gcp_logging.query_logs, gcp_logging.list_log_entries, github.*): each
receives the config and the argument values the dispatcher passes, and either
returns the result string or raises a failure that dispatch must catch. -/
structure Env where
  query_logs : Config → JValue → JValue → Except Exn String
  list_log_entries : Config → JValue → JValue → JValue → Except Exn String
  list_repo_files : Config → JValue → Except Exn String
  get_file_content : Config → JValue → JValue → Except Exn String
  create_branch : Config → JValue → Except Exn String
  commit_file_change : Config → JValue → JValue → JValue → JValue → Except Exn String
  create_pull_request : Config → JValue → JValue → JValue → JValue → Except Exn String

/-- Python args[key]: the value when present, otherwise a KeyError. -/
def getItem (args : Args) (key : String) : Except Exn JValue :=
  match args.lookup key with
  | some v => .ok v
  | none => .error (.keyError key)

/-- Python args.get(key, default). -/
def getDefault (args : Args) (key : String) (d : JValue) : JValue :=
  (args.lookup key).getD d

/-- Lambda for "query_logs" (tools/__init__.py lines 190-192): required
filter_str, limit defaulted to 50. -/
def query_logs_handler (cfg : Config) (env : Env) (args : Args) : Except Exn String := do
  let filter_str ← getItem args "filter_str"
  env.query_logs cfg filter_str (getDefault args "limit" (.int 50))

/-- Lambda for "list_log_entries" (lines 193-195): required function_name,
hours_ago defaulted to 24, limit defaulted to 50. -/
def list_log_entries_handler (cfg : Config) (env : Env) (args : Args) : Except Exn String := do
  let function_name ← getItem args "function_name"
  env.list_log_entries cfg function_name (getDefault args "hours_ago" (.int 24))
    (getDefault args "limit" (.int 50))

/-- Lambda for "list_repo_files" (lines 196-198): path defaulted to the empty
string. -/
def list_repo_files_handler (cfg : Config) (env : Env) (args : Args) : Except Exn String :=
  env.list_repo_files cfg (getDefault args "path" (.str ""))

/-- Lambda for "get_file_content" (lines 199-201): required path, ref defaulted
to "main". -/
def get_file_content_handler (cfg : Config) (env : Env) (args : Args) : Except Exn String := do
  let path ← getItem args "path"
  env.get_file_content cfg path (getDefault args "ref" (.str "main"))

/-- Lambda for "create_branch" (lines 202-204): required branch_name. -/
def create_branch_handler (cfg : Config) (env : Env) (args : Args) : Except Exn String := do
  let branch_name ← getItem args "branch_name"
  env.create_branch cfg branch_name

/-- Lambda for "commit_file_change" (lines 205-207): required path, content,
message and branch. -/
def commit_file_change_handler (cfg : Config) (env : Env) (args : Args) : Except Exn String := do
  let path ← getItem args "path"
  let content ← getItem args "content"
  let message ← getItem args "message"
  let branch ← getItem args "branch"
  env.commit_file_change cfg path content message branch

/-- Lambda for "create_pull_request" (lines 208-210): required title, body and
head_branch, base_branch defaulted to "main". -/
def create_pull_request_handler (cfg : Config) (env : Env) (args : Args) : Except Exn String := do
  let title ← getItem args "title"
  let body ← getItem args "body"
  let head_branch ← getItem args "head_branch"
  env.create_pull_request cfg title body head_branch (getDefault args "base_branch" (.str "main"))

/-- The handlers mapping built inside dispatch (tools/__init__.py lines
189-211), one entry per tool contract. -/
def handlers (cfg : Config) (env : Env) : List (String × (Args → Except Exn String)) :=
  [ ("query_logs", query_logs_handler cfg env),
    ("list_log_entries", list_log_entries_handler cfg env),
    ("list_repo_files", list_repo_files_handler cfg env),
    ("get_file_content", get_file_content_handler cfg env),
    ("create_branch", create_branch_handler cfg env),
    ("commit_file_change", commit_file_change_handler cfg env),
    ("create_pull_request", create_pull_request_handler cfg env) ]

/-- The try/except around handler(arguments) (tools/__init__.py lines 217-220):
a success passes through unchanged, any raised failure becomes the structured
error payload naming the tool and the failure message. -/
def handlerOutcome (tool_name : String) : Except Exn String → String
  | .ok s => s
  | .error e => errorPayload ("Tool '" ++ tool_name ++ "' failed: " ++ exnMessage e)

/-- dispatch (tools/__init__.py lines 177-220): resolve the handler by name,
fall back to the unknown-tool payload, otherwise run the handler under the
catch-all. -/
def dispatch (tool_name : String) (arguments : Args) (cfg : Config) (env : Env) : String :=
  match (handlers cfg env).lookup tool_name with
  | none => errorPayload ("Unknown tool: " ++ tool_name)
  | some handler => handlerOutcome tool_name (handler arguments)

/-- Sample configuration used by the concrete witnesses. -/
def sampleConfig : Config :=
  { OPENAI_API_KEY := "sk-test"
    GCP_PROJECT_ID := "demo-project"
    GCP_FUNCTION_NAME := "checkout-fn"
    GCP_SA_KEY_BASE64 := "c2E="
    GITHUB_TOKEN := "ghp-test"
    GITHUB_REPO := "acme/shop" }

/-- Sample environment whose external calls all succeed. -/
def sampleEnv : Env :=
  { query_logs := fun _ _ _ => .ok "[]"
    list_log_entries := fun _ _ _ _ => .ok "[]"
    list_repo_files := fun _ _ => .ok "[]"
    get_file_content := fun _ _ _ => .ok "print(1)"
    create_branch := fun _ _ => .ok "\x7b\"success\": true\x7d"
    commit_file_change := fun _ _ _ _ _ => .ok "\x7b\"success\": true\x7d"
    create_pull_request := fun _ _ _ _ _ => .ok "\x7b\"success\": true\x7d" }

/-- Environment whose query_logs call raises a remote failure. -/
def failingEnv : Env :=
  { sampleEnv with query_logs := fun _ _ _ => .error (.failure "503 Service Unavailable") }

/-- C5: dispatch called with a tool name matching no registered contract
returns the structured error payload embedding the unknown name; being a total
String-valued function, it does not raise. -/
theorem dispatch_unknown_tool (cfg : Config) (env : Env) (tool_name : String)
    (arguments : Args) (h : (handlers cfg env).lookup tool_name = none) :
    dispatch tool_name arguments cfg env = errorPayload ("Unknown tool: " ++ tool_name) := by
  unfold dispatch
  rw [h]

/-- Witness for C5 at the unregistered name "frobnicate". -/
theorem dispatch_unknown_tool_witness :
    dispatch "frobnicate" [] sampleConfig sampleEnv
      = errorPayload ("Unknown tool: " ++ "frobnicate") :=
  dispatch_unknown_tool sampleConfig sampleEnv "frobnicate" [] rfl

/-- C4: for every registered tool name, every argument mapping and every
failure raised by the resolved handler, dispatch catches the failure and
returns the structured error payload containing the tool name and the failure
message; as a total String-valued function it never propagates the failure. -/
theorem dispatch_handler_failure (cfg : Config) (env : Env) (tool_name : String)
    (arguments : Args) (handler : Args → Except Exn String) (e : Exn)
    (hres : (handlers cfg env).lookup tool_name = some handler)
    (hfail : handler arguments = .error e) :
    dispatch tool_name arguments cfg env
      = errorPayload ("Tool '" ++ tool_name ++ "' failed: " ++ exnMessage e) := by
  simp only [dispatch, hres, hfail, handlerOutcome]

/-- Witness for C4: a remote failure of the query_logs handler surfaces as the
structured payload naming the tool and the failure. -/
theorem dispatch_handler_failure_witness :
    dispatch "query_logs" [("filter_str", .str "severity>=ERROR")] sampleConfig failingEnv
      = errorPayload ("Tool '" ++ "query_logs" ++ "' failed: "
          ++ exnMessage (.failure "503 Service Unavailable")) :=
  dispatch_handler_failure sampleConfig failingEnv "query_logs"
    [("filter_str", .str "severity>=ERROR")] _ (.failure "503 Service Unavailable") rfl rfl

/-- Lookup success rewriting for args[key]. -/
theorem getItem_some (args : Args) (key : String) (v : JValue)
    (h : args.lookup key = some v) : getItem args key = .ok v := by
  simp [getItem, h]

/-- Lookup failure rewriting for args[key]: a KeyError. -/
theorem getItem_none (args : Args) (key : String)
    (h : args.lookup key = none) : getItem args key = .error (.keyError key) := by
  simp [getItem, h]

/-- Rewriting for args.get(key, default) when the key is absent. -/
theorem getDefault_none (args : Args) (key : String) (d : JValue)
    (h : args.lookup key = none) : getDefault args key d = d := by
  simp [getDefault, h]

/-- C10: for every registered tool, dispatch substitutes the fixed default for
each optional parameter absent from the argument mapping (limit 50, hours_ago
24, path "", ref "main", base_branch "main"), while a mapping missing a
required parameter (such as filter_str or branch_name) makes dispatch return
the structured error payload for that tool instead of raising. -/
theorem dispatch_defaults_and_required (cfg : Config) (env : Env) (args : Args) :
    (∀ v, args.lookup "filter_str" = some v → args.lookup "limit" = none →
      dispatch "query_logs" args cfg env
        = handlerOutcome "query_logs" (env.query_logs cfg v (.int 50)))
  ∧ (∀ v, args.lookup "function_name" = some v → args.lookup "hours_ago" = none →
      args.lookup "limit" = none →
      dispatch "list_log_entries" args cfg env
        = handlerOutcome "list_log_entries" (env.list_log_entries cfg v (.int 24) (.int 50)))
  ∧ (args.lookup "path" = none →
      dispatch "list_repo_files" args cfg env
        = handlerOutcome "list_repo_files" (env.list_repo_files cfg (.str "")))
  ∧ (∀ v, args.lookup "path" = some v → args.lookup "ref" = none →
      dispatch "get_file_content" args cfg env
        = handlerOutcome "get_file_content" (env.get_file_content cfg v (.str "main")))
  ∧ (∀ t b hb, args.lookup "title" = some t → args.lookup "body" = some b →
      args.lookup "head_branch" = some hb → args.lookup "base_branch" = none →
      dispatch "create_pull_request" args cfg env
        = handlerOutcome "create_pull_request" (env.create_pull_request cfg t b hb (.str "main")))
  ∧ (args.lookup "filter_str" = none →
      dispatch "query_logs" args cfg env
        = errorPayload ("Tool '" ++ "query_logs" ++ "' failed: "
            ++ exnMessage (.keyError "filter_str")))
  ∧ (args.lookup "branch_name" = none →
      dispatch "create_branch" args cfg env
        = errorPayload ("Tool '" ++ "create_branch" ++ "' failed: "
            ++ exnMessage (.keyError "branch_name"))) := by
  refine ⟨?_, ?_, ?_, ?_, ?_, ?_, ?_⟩
  · intro v hv hd
    have step : dispatch "query_logs" args cfg env
        = handlerOutcome "query_logs" (query_logs_handler cfg env args) := rfl
    rw [step]
    unfold query_logs_handler
    simp only [getItem_some args "filter_str" v hv, getDefault_none args "limit" _ hd]
    rfl
  · intro v hv hd1 hd2
    have step : dispatch "list_log_entries" args cfg env
        = handlerOutcome "list_log_entries" (list_log_entries_handler cfg env args) := rfl
    rw [step]
    unfold list_log_entries_handler
    simp only [getItem_some args "function_name" v hv, getDefault_none args "hours_ago" _ hd1,
      getDefault_none args "limit" _ hd2]
    rfl
  · intro hd
    have step : dispatch "list_repo_files" args cfg env
        = handlerOutcome "list_repo_files" (list_repo_files_handler cfg env args) := rfl
    rw [step]
    unfold list_repo_files_handler
    simp only [getDefault_none args "path" _ hd]
  · intro v hv hd
    have step : dispatch "get_file_content" args cfg env
        = handlerOutcome "get_file_content" (get_file_content_handler cfg env args) := rfl
    rw [step]
    unfold get_file_content_handler
    simp only [getItem_some args "path" v hv, getDefault_none args "ref" _ hd]
    rfl
  · intro t b hb ht hbody hhead hd
    have step : dispatch "create_pull_request" args cfg env
        = handlerOutcome "create_pull_request" (create_pull_request_handler cfg env args) := rfl
    rw [step]
    unfold create_pull_request_handler
    simp only [getItem_some args "title" t ht, getItem_some args "body" b hbody,
      getItem_some args "head_branch" hb hhead, getDefault_none args "base_branch" _ hd]
    rfl
  · intro hd
    have step : dispatch "query_logs" args cfg env
        = handlerOutcome "query_logs" (query_logs_handler cfg env args) := rfl
    rw [step]
    unfold query_logs_handler
    simp only [getItem_none args "filter_str" hd]
    rfl
  · intro hd
    have step : dispatch "create_branch" args cfg env
        = handlerOutcome "create_branch" (create_branch_handler cfg env args) := rfl
    rw [step]
    unfold create_branch_handler
    simp only [getItem_none args "branch_name" hd]
    rfl

/-- Witness for C10: the default limit is substituted for query_logs, and a
mapping missing branch_name yields the create_branch error payload. -/
theorem dispatch_defaults_and_required_witness :
    dispatch "query_logs" [("filter_str", .str "severity>=ERROR")] sampleConfig sampleEnv
      = handlerOutcome "query_logs"
          (sampleEnv.query_logs sampleConfig (.str "severity>=ERROR") (.int 50))
  ∧ dispatch "create_branch" [] sampleConfig sampleEnv
      = errorPayload ("Tool '" ++ "create_branch" ++ "' failed: "
          ++ exnMessage (.keyError "branch_name")) :=
  ⟨(dispatch_defaults_and_required sampleConfig sampleEnv
      [("filter_str", .str "severity>=ERROR")]).1 (.str "severity>=ERROR") rfl rfl,
   (dispatch_defaults_and_required sampleConfig sampleEnv []).2.2.2.2.2.2 rfl⟩

/-- SYSTEM_PROMPT (agent/prompts.py). -/
def SYSTEM_PROMPT : String :=
  "You are an AI debugging agent. Your job is to investigate production issues in a Google Cloud Function, identify the root cause of any bugs, and open a GitHub Pull Request with a fix.

## Your workflow

1. **Investigate HTTP request logs**: Start by using list_log_entries to fetch recent HTTP request logs for the function. These logs contain an `http_request` field with the full request URL (including query parameters), HTTP status code, and response size. Examine the request URLs carefully — look at the query parameter values and combinations.

2. **Analyze patterns**: Look for unusual parameter values or edge cases in the request URLs. Not all bugs produce error-level logs — some bugs return HTTP 200 but with incorrect/anomalous response data. Pay attention to parameter combinations that could cause mathematical errors, empty results, or undefined behavior.

3. **Inspect the code**: Read the source code from the GitHub repository. Trace through the logic with the suspicious parameter combinations you found in the logs. Look for edge cases like division by zero, empty arrays, off-by-one errors, null/undefined values, etc.

4. **Generate a fix**: Write a minimal, targeted fix that addresses the root cause without changing unrelated code. Do NOT add logging — focus on fixing the actual bug.

5. **Open a Pull Request**: Create a new branch, commit your fix, and open a PR. The PR description is the most important artifact — it should read like an investigation report that tells the full story. Use this structure:

   **## Investigation** — Describe what you looked at. Mention that you queried GCP Cloud Logging, what kind of log entries you found, and cite specific request URLs/parameters you observed in the logs.

   **## Root Cause** — Walk through the bug step-by-step. Trace the exact code path with the problematic parameter values. Show what happens at each line: what gets fetched, what gets sliced, what the computation produces, and why the result is wrong. Include relevant code snippets.

   **## Impact** — Explain what the end user actually sees when this bug is triggered. What does the response look like? Why is it wrong?

   **## Fix** — Explain exactly what you changed and why this specific fix is the right approach. Mention any alternatives you considered.

   **## How to Verify** — Provide concrete curl commands or test steps to confirm the fix works.

## Important guidelines

- The bug may be subtle. It may only appear under specific parameter combinations.
- All requests may return HTTP 200 — do NOT assume the absence of errors means there is no bug.
- GCP does not log response bodies. You must reason about what the function returns by reading the code and tracing the logic with the parameter values you see in the logs.
- Read the full source code to understand context before proposing a fix.
- Keep your fix minimal — only change what's necessary to fix the bug.
- Do NOT add logging, monitoring, or observability changes. Your job is to FIX THE BUG.
- The PR description should be detailed and thorough — it demonstrates your reasoning process. Do not be brief.
- If a tool call fails, try again with adjusted parameters.
- When you're done (PR is opened), summarize what you found and provide the PR URL.
"

/-- get_user_prompt (agent/prompts.py lines 39-46). -/
def get_user_prompt (function_name : String) (project_id : String) : String :=
  "Investigate production issues with the Cloud Function '" ++ function_name ++ "' " ++
  "in GCP project '" ++ project_id ++ "'. " ++
  "Check the logs for any errors or anomalous behavior, " ++
  "identify the root cause, fix the code, and open a GitHub Pull Request."

/-- Roles a transcript message can carry. -/
inductive Role where
  | system
  | user
  | assistant
  | tool
deriving Repr, DecidableEq

/-- One tool-call request of an assistant message.  raw_arguments records the
outcome of json.loads on the raw argument text of the request: some mapping
when the text parses, none when it is malformed (JSONDecodeError). -/
structure ToolCall where
  id : String
  name : String
  raw_arguments : Option Args
deriving Repr, DecidableEq

/-- One transcript message: role, textual content, tool-call requests
(assistant messages only) and tool_call_id (tool messages only). -/
structure Message where
  role : Role
  content : Option String := none
  tool_calls : List ToolCall := []
  tool_call_id : Option String := none
deriving Repr, DecidableEq

/-- Assistant message returned by one model call: textual content and the
ordered tool-call requests. -/
structure AssistantMsg where
  content : Option String
  tool_calls : List ToolCall
deriving Repr, DecidableEq

/-- Fixed final text substituted when the terminal response has falsy content
(agent.py line 71). -/
def noSummaryMessage : String := "Agent finished without a summary."

/-- Fixed status returned when the iteration budget is exhausted (agent.py
line 108). -/
def budgetMessage : String := "Agent reached maximum iterations without completing the task."

/-- Python message.content or noSummaryMessage: None and the empty string are
falsy, any other string passes through. -/
def contentOr (c : Option String) : String :=
  match c with
  | some s => if s = "" then noSummaryMessage else s
  | none => noSummaryMessage

/-- The json.loads call with its JSONDecodeError fallback (agent.py lines
84-87): malformed argument text becomes the empty mapping. -/
def parseArguments (raw : Option Args) : Args :=
  raw.getD []

/-- The tool message appended for one tool-call request (agent.py lines
82-102): the dispatch result under the request's id. -/
def toolResultMsg (cfg : Config) (env : Env) (tc : ToolCall) : Message :=
  { role := .tool
    content := some (dispatch tc.name (parseArguments tc.raw_arguments) cfg env)
    tool_call_id := some tc.id }

/-- The assistant response as it is appended to the transcript (agent.py
line 80). -/
def assistantRecord (m : AssistantMsg) : Message :=
  { role := .assistant, content := m.content, tool_calls := m.tool_calls }

/-- Transcript after one tool-calling iteration (agent.py lines 79-102): the
assistant message, then one tool message per request in the order issued. -/
def stepMsgs (cfg : Config) (env : Env) (msgs : List Message) (m : AssistantMsg) :
    List Message :=
  (msgs ++ [assistantRecord m]) ++ m.tool_calls.map (toolResultMsg cfg env)

/-- Terminal phases of a run as the spec names them.  The code has no phase
variable; COMPLETED records a return from the no-tool-calls branch (agent.py
line 77) and BUDGET_EXHAUSTED a return after the loop (line 108). -/
inductive Phase where
  | completed
  | budgetExhausted
deriving Repr, DecidableEq

/-- Observable outcome of a run: the returned string, the final transcript,
the number of model calls performed, and the terminal phase. -/
structure RunResult where
  result : String
  messages : List Message
  calls : Nat
  phase : Phase
deriving Repr, DecidableEq

/-- The for-loop of DebugAgent.run (agent.py lines 57-108), with the model
call as an oracle from the submitted transcript to the assistant message.
fuel is the number of loop iterations still allowed, calls the number of
model calls already performed. -/
def runLoop (llm : List Message → AssistantMsg) (cfg : Config) (env : Env) :
    Nat → List Message → Nat → RunResult
  | 0, msgs, calls => ⟨budgetMessage, msgs, calls, .budgetExhausted⟩
  | fuel + 1, msgs, calls =>
    let m := llm msgs
    if m.tool_calls = [] then
      let final_message := contentOr m.content
      ⟨final_message, msgs ++ [{ role := .assistant, content := some final_message }],
        calls + 1, .completed⟩
    else
      runLoop llm cfg env fuel (stepMsgs cfg env msgs m) (calls + 1)

/-- The seeded transcript (agent.py lines 37-46): the system prompt and the
user prompt built from the configured function and project. -/
def initMessages (cfg : Config) : List Message :=
  [ { role := .system, content := some SYSTEM_PROMPT },
    { role := .user,
      content := some (get_user_prompt cfg.GCP_FUNCTION_NAME cfg.GCP_PROJECT_ID) } ]

/-- DebugAgent.run with bound max_iterations (agent.py lines 29-108). -/
def DebugAgent.run (llm : List Message → AssistantMsg) (cfg : Config) (env : Env)
    (max_iterations : Nat) : RunResult :=
  runLoop llm cfg env max_iterations (initMessages cfg) 0

/-- The substituted final text is never the empty string: falsy content becomes
the fixed no-summary message and truthy content is non-empty by definition. -/
theorem contentOr_ne_empty (c : Option String) : contentOr c ≠ "" := by
  cases c with
  | none =>
    show noSummaryMessage ≠ ""
    decide
  | some s =>
    by_cases h : s = ""
    · simp only [contentOr, h, if_pos]
      decide
    · simpa only [contentOr, if_neg h] using h

/-- The loop performs at most fuel further model calls beyond those already
counted. -/
theorem runLoop_calls_le (llm : List Message → AssistantMsg) (cfg : Config) (env : Env) :
    ∀ (fuel : Nat) (msgs : List Message) (calls : Nat),
      (runLoop llm cfg env fuel msgs calls).calls ≤ calls + fuel := by
  intro fuel
  induction fuel with
  | zero =>
    intro msgs calls
    simp [runLoop]
  | succ n ih =>
    intro msgs calls
    by_cases h : (llm msgs).tool_calls = []
    · simp only [runLoop, h, if_pos]
      omega
    · simp only [runLoop, h, if_neg, not_false_iff]
      have := ih (stepMsgs cfg env msgs (llm msgs)) (calls + 1)
      omega

/-- The transcript the loop was entered with stays an unchanged prefix of the
final transcript. -/
theorem runLoop_extends (llm : List Message → AssistantMsg) (cfg : Config) (env : Env) :
    ∀ (fuel : Nat) (msgs : List Message) (calls : Nat),
      msgs <+: (runLoop llm cfg env fuel msgs calls).messages := by
  intro fuel
  induction fuel with
  | zero =>
    intro msgs calls
    simp [runLoop]
  | succ n ih =>
    intro msgs calls
    by_cases h : (llm msgs).tool_calls = []
    · simp only [runLoop, h, if_pos]
      exact List.prefix_append msgs _
    · simp only [runLoop, h, if_neg, not_false_iff]
      refine List.IsPrefix.trans ?_ (ih (stepMsgs cfg env msgs (llm msgs)) (calls + 1))
      refine ⟨[assistantRecord (llm msgs)] ++ (llm msgs).tool_calls.map (toolResultMsg cfg env), ?_⟩
      simp [stepMsgs]

/-- Every run either completes or ends in the budget-exhausted phase with the
fixed budget status as its result. -/
theorem runLoop_phase_result (llm : List Message → AssistantMsg) (cfg : Config) (env : Env) :
    ∀ (fuel : Nat) (msgs : List Message) (calls : Nat),
      (runLoop llm cfg env fuel msgs calls).phase = .completed
      ∨ ((runLoop llm cfg env fuel msgs calls).phase = .budgetExhausted
          ∧ (runLoop llm cfg env fuel msgs calls).result = budgetMessage) := by
  intro fuel
  induction fuel with
  | zero =>
    intro msgs calls
    right
    simp [runLoop]
  | succ n ih =>
    intro msgs calls
    by_cases h : (llm msgs).tool_calls = []
    · left
      simp [runLoop, h]
    · simp only [runLoop, h, if_neg, not_false_iff]
      exact ih (stepMsgs cfg env msgs (llm msgs)) (calls + 1)

/-- C2: the driver performs at most B model calls per run; with bound zero the
model is never called and the run immediately returns the fixed
budget-exhausted status; and whenever the bound runs out without a terminal
assistant message the run returns the budget-exhausted status with every
already-appended message still present (the entry transcript stays a prefix). -/
theorem run_model_call_budget (llm : List Message → AssistantMsg) (cfg : Config)
    (env : Env) (B : Nat) :
    (DebugAgent.run llm cfg env B).calls ≤ B
  ∧ DebugAgent.run llm cfg env 0
      = ⟨budgetMessage, initMessages cfg, 0, .budgetExhausted⟩
  ∧ ∀ (fuel : Nat) (msgs : List Message) (calls : Nat),
      msgs <+: (runLoop llm cfg env fuel msgs calls).messages
      ∧ ((runLoop llm cfg env fuel msgs calls).phase = .completed
          ∨ ((runLoop llm cfg env fuel msgs calls).phase = .budgetExhausted
              ∧ (runLoop llm cfg env fuel msgs calls).result = budgetMessage)) := by
  refine ⟨?_, rfl, ?_⟩
  · have := runLoop_calls_le llm cfg env B (initMessages cfg) 0
    simpa [DebugAgent.run] using this
  · intro fuel msgs calls
    exact ⟨runLoop_extends llm cfg env fuel msgs calls,
      runLoop_phase_result llm cfg env fuel msgs calls⟩

/-- C1: when the assistant message of iteration k of a run with bound B at
least k carries no tool-call requests and non-empty textual content s, the
loop (entered for iteration k with k - 1 calls made and B - (k - 1) iterations
left) appends exactly that message, terminates at iteration k in phase
COMPLETED, returns exactly s, and has made k model calls in total, so no model
call happens for iteration k + 1. -/
theorem terminal_message_completes_run (llm : List Message → AssistantMsg)
    (cfg : Config) (env : Env) (B k : Nat) (msgs : List Message) (s : String)
    (hk1 : 1 ≤ k) (hkB : k ≤ B)
    (hterm : (llm msgs).tool_calls = [])
    (hcontent : (llm msgs).content = some s) (hs : s ≠ "") :
    runLoop llm cfg env (B - (k - 1)) msgs (k - 1)
      = ⟨s, msgs ++ [{ role := .assistant, content := some s }], k, .completed⟩ := by
  have hfuel : B - (k - 1) = (B - k) + 1 := by omega
  have hcalls : (k - 1) + 1 = k := by omega
  rw [hfuel]
  simp [runLoop, hterm, contentOr, hcontent, hs, hcalls]

/-- Model oracle that immediately answers with terminal text. -/
def llmDone : List Message → AssistantMsg :=
  fun _ => { content := some "Done.", tool_calls := [] }

/-- Witness for C1 at bound 1, iteration 1, on the seeded transcript. -/
theorem terminal_message_completes_run_witness :
    runLoop llmDone sampleConfig sampleEnv (1 - (1 - 1)) (initMessages sampleConfig) (1 - 1)
      = ⟨"Done.", initMessages sampleConfig
          ++ [{ role := .assistant, content := some "Done." }], 1, .completed⟩ :=
  terminal_message_completes_run llmDone sampleConfig sampleEnv 1 1
    (initMessages sampleConfig) "Done." (by decide) (by decide) rfl rfl (by decide)

/-- C3: an iteration whose assistant message issues tool-call requests appends
the assistant message and then exactly one tool message per request: the
transcript grows by exactly 1 + N messages, the old transcript stays an
unchanged prefix, and for every i the i-th appended tool message answers the
id of the i-th request. -/
theorem tool_call_iteration_transcript (llm : List Message → AssistantMsg)
    (cfg : Config) (env : Env) (msgs : List Message) (fuel calls : Nat)
    (hne : (llm msgs).tool_calls ≠ []) :
    runLoop llm cfg env (fuel + 1) msgs calls
      = runLoop llm cfg env fuel (stepMsgs cfg env msgs (llm msgs)) (calls + 1)
  ∧ (stepMsgs cfg env msgs (llm msgs)).length
      = msgs.length + 1 + (llm msgs).tool_calls.length
  ∧ msgs <+: stepMsgs cfg env msgs (llm msgs)
  ∧ ∀ i : Nat,
      (((stepMsgs cfg env msgs (llm msgs)).drop (msgs.length + 1))[i]?).map
          Message.tool_call_id
        = ((llm msgs).tool_calls[i]?).map (fun tc => some tc.id) := by
  have hdrop : (stepMsgs cfg env msgs (llm msgs)).drop (msgs.length + 1)
      = (llm msgs).tool_calls.map (toolResultMsg cfg env) := by
    have hlen : msgs.length + 1 = (msgs ++ [assistantRecord (llm msgs)]).length := by simp
    rw [stepMsgs, hlen, List.drop_left]
  refine ⟨?_, ?_, ?_, ?_⟩
  · simp only [runLoop, hne, if_neg, not_false_iff]
  · simp [stepMsgs]
    omega
  · exact ⟨[assistantRecord (llm msgs)] ++ (llm msgs).tool_calls.map (toolResultMsg cfg env),
      by simp [stepMsgs]⟩
  · intro i
    rw [hdrop, List.getElem?_map]
    cases h : ((llm msgs).tool_calls)[i]? with
    | none => simp [h]
    | some tc => simp [h, toolResultMsg]

/-- Tool-call request whose raw argument text is malformed. -/
def sampleToolCall : ToolCall :=
  { id := "call_1", name := "list_repo_files", raw_arguments := none }

/-- Model oracle that issues one tool-call request on every turn. -/
def llmToolOnce : List Message → AssistantMsg :=
  fun _ => { content := none, tool_calls := [sampleToolCall] }

/-- Witness for C3 with one request on the empty transcript. -/
theorem tool_call_iteration_transcript_witness :
    runLoop llmToolOnce sampleConfig sampleEnv (0 + 1) [] 0
      = runLoop llmToolOnce sampleConfig sampleEnv 0
          (stepMsgs sampleConfig sampleEnv [] (llmToolOnce [])) (0 + 1)
  ∧ (stepMsgs sampleConfig sampleEnv [] (llmToolOnce [])).length
      = ([] : List Message).length + 1 + (llmToolOnce []).tool_calls.length
  ∧ ([] : List Message) <+: stepMsgs sampleConfig sampleEnv [] (llmToolOnce [])
  ∧ ∀ i : Nat,
      (((stepMsgs sampleConfig sampleEnv [] (llmToolOnce [])).drop
          (([] : List Message).length + 1))[i]?).map Message.tool_call_id
        = ((llmToolOnce []).tool_calls[i]?).map (fun tc => some tc.id) :=
  tool_call_iteration_transcript llmToolOnce sampleConfig sampleEnv [] 0 0 (by decide)

/-- C6: a tool-call request whose raw argument text fails to parse is carried
on with the empty argument mapping: the resolved handler still runs on the
empty mapping, and the corresponding tool result message is still produced and
appended at its position after the assistant message. -/
theorem malformed_arguments_use_empty_mapping (cfg : Config) (env : Env)
    (msgs : List Message) (m : AssistantMsg) (tc : ToolCall) (i : Nat)
    (handler : Args → Except Exn String)
    (hi : m.tool_calls[i]? = some tc) (hraw : tc.raw_arguments = none)
    (hres : (handlers cfg env).lookup tc.name = some handler) :
    parseArguments tc.raw_arguments = []
  ∧ dispatch tc.name (parseArguments tc.raw_arguments) cfg env
      = handlerOutcome tc.name (handler [])
  ∧ (stepMsgs cfg env msgs m)[msgs.length + 1 + i]?
      = some { role := .tool
               content := some (handlerOutcome tc.name (handler []))
               tool_call_id := some tc.id } := by
  have hparse : parseArguments tc.raw_arguments = [] := by
    rw [hraw]
    rfl
  have hdisp : dispatch tc.name (parseArguments tc.raw_arguments) cfg env
      = handlerOutcome tc.name (handler []) := by
    rw [hparse]
    simp [dispatch, hres]
  refine ⟨hparse, hdisp, ?_⟩
  have hstep : (stepMsgs cfg env msgs m)[msgs.length + 1 + i]?
      = (m.tool_calls.map (toolResultMsg cfg env))[i]? := by
    have hlen : (msgs ++ [assistantRecord m]).length = msgs.length + 1 := by simp
    rw [stepMsgs, List.getElem?_append_right (by omega)]
    congr 1
    omega
  rw [hstep, List.getElem?_map, hi]
  simp [toolResultMsg, hdisp]

/-- Witness for C6: the malformed request still reaches list_repo_files with
the empty mapping and its tool message is appended. -/
theorem malformed_arguments_use_empty_mapping_witness :
    parseArguments sampleToolCall.raw_arguments = []
  ∧ dispatch sampleToolCall.name (parseArguments sampleToolCall.raw_arguments)
        sampleConfig sampleEnv
      = handlerOutcome sampleToolCall.name (list_repo_files_handler sampleConfig sampleEnv [])
  ∧ (stepMsgs sampleConfig sampleEnv [] (llmToolOnce []))[([] : List Message).length + 1 + 0]?
      = some { role := .tool
               content := some (handlerOutcome sampleToolCall.name
                   (list_repo_files_handler sampleConfig sampleEnv []))
               tool_call_id := some sampleToolCall.id } :=
  malformed_arguments_use_empty_mapping sampleConfig sampleEnv [] (llmToolOnce [])
    sampleToolCall 0 (list_repo_files_handler sampleConfig sampleEnv) rfl rfl rfl

/-- C9: a terminal assistant message whose content is null or empty does not
become the run's result: the fixed no-summary string is appended and returned
instead, and the result of any run is always a non-empty string. -/
theorem empty_content_defaults (llm : List Message → AssistantMsg) (cfg : Config)
    (env : Env) (fuel : Nat) (msgs : List Message) (calls : Nat)
    (hterm : (llm msgs).tool_calls = [])
    (hc : (llm msgs).content = none ∨ (llm msgs).content = some "") :
    (runLoop llm cfg env (fuel + 1) msgs calls).result = noSummaryMessage
  ∧ (runLoop llm cfg env (fuel + 1) msgs calls).messages
      = msgs ++ [{ role := .assistant, content := some noSummaryMessage }]
  ∧ ∀ (fuel2 : Nat) (msgs2 : List Message) (calls2 : Nat),
      (runLoop llm cfg env fuel2 msgs2 calls2).result ≠ "" := by
  have hco : contentOr (llm msgs).content = noSummaryMessage := by
    rcases hc with h | h <;> simp [contentOr, h]
  refine ⟨?_, ?_, ?_⟩
  · simp [runLoop, hterm, hco]
  · simp [runLoop, hterm, hco]
  · intro fuel2
    induction fuel2 with
    | zero =>
      intro msgs2 calls2
      show budgetMessage ≠ ""
      decide
    | succ n ih =>
      intro msgs2 calls2
      by_cases h : (llm msgs2).tool_calls = []
      · simp only [runLoop, h, if_pos]
        exact contentOr_ne_empty _
      · simp only [runLoop, h, if_neg, not_false_iff]
        exact ih _ _

/-- Model oracle that answers with no tool calls and null content. -/
def llmSilent : List Message → AssistantMsg :=
  fun _ => { content := none, tool_calls := [] }

/-- Witness for C9 with a null-content terminal response. -/
theorem empty_content_defaults_witness :
    (runLoop llmSilent sampleConfig sampleEnv (0 + 1) [] 0).result = noSummaryMessage
  ∧ (runLoop llmSilent sampleConfig sampleEnv (0 + 1) [] 0).messages
      = ([] : List Message) ++ [{ role := .assistant, content := some noSummaryMessage }]
  ∧ ∀ (fuel2 : Nat) (msgs2 : List Message) (calls2 : Nat),
      (runLoop llmSilent sampleConfig sampleEnv fuel2 msgs2 calls2).result ≠ "" :=
  empty_content_defaults llmSilent sampleConfig sampleEnv 0 [] 0 rfl (Or.inl rfl)

/-- Resource descriptor of a log record (entry.resource): a type and a label
mapping. -/
structure ResourceDescriptor where
  type : String
  labels : List (String × String)
deriving Repr, DecidableEq

/-- entry.payload: absent (None), a string payload, or a structured record
(its fields rendered as strings, as json.dumps with default=str does). -/
inductive PayloadValue where
  | null
  | text (s : String)
  | struct (fields : List (String × String))
deriving Repr, DecidableEq

/-- One record returned by the logging client, with the attributes query_logs
reads.  Timestamps are instants in seconds; isoformat renders them. -/
structure LogEntry where
  timestamp : Option Int
  severity : Option String
  resource : Option ResourceDescriptor
  text_payload : Option String
  payload : PayloadValue
  http_request : Option (List (String × String))
deriving Repr, DecidableEq

/-- Rendering of a timestamp instant as the isoformat text used in filters and
output.  The concrete ISO grammar is a datetime-library detail; an injective
rendering of the instant stands in for it. -/
def isoformat (t : Int) : String := toString t

/-- Values appearing as fields of one rendered entry: a string, null, a flat
object of strings, or the resource object with its type and labels. -/
inductive EField where
  | str (s : String)
  | null
  | strObj (fields : List (String × String))
  | resObj (rtype : Option String) (labels : List (String × String))
deriving Repr, DecidableEq

/-- Rendering of a flat string-to-string object as json.dumps lays it out. -/
def renderStrObj : List (String × String) → String
  | [] => ""
  | [(k, v)] => "\"" ++ escapeJson k ++ "\": \"" ++ escapeJson v ++ "\""
  | (k, v) :: rest =>
    "\"" ++ escapeJson k ++ "\": \"" ++ escapeJson v ++ "\", " ++ renderStrObj rest

/-- Rendering of one entry field value. -/
def EField.render : EField → String
  | .str s => "\"" ++ escapeJson s ++ "\""
  | .null => "null"
  | .strObj fields => "\x7b" ++ renderStrObj fields ++ "\x7d"
  | .resObj rtype labels =>
    "\x7b\"type\": "
      ++ (match rtype with
          | some t => "\"" ++ escapeJson t ++ "\""
          | none => "null")
      ++ ", \"labels\": \x7b" ++ renderStrObj labels ++ "\x7d\x7d"

/-- Rendering of the field list of one entry object. -/
def renderEntryFields : List (String × EField) → String
  | [] => ""
  | [(k, f)] => "\"" ++ k ++ "\": " ++ f.render
  | (k, f) :: rest => "\"" ++ k ++ "\": " ++ f.render ++ ", " ++ renderEntryFields rest

/-- Rendering of json.dumps on the result list (the indent=2 pretty-printing
is abstracted into this one flat layout). -/
def renderResults (entries : List (List (String × EField))) : String :=
  "[" ++ String.intercalate ", "
      (entries.map (fun e => "\x7b" ++ renderEntryFields e ++ "\x7d")) ++ "]"

/-- Python truthiness of entry.text_payload behind the hasattr guard: present
and non-empty. -/
def textPayloadTruthy (entry : LogEntry) : Bool :=
  match entry.text_payload with
  | some s => s ≠ ""
  | none => false

/-- The elif chain on entry.payload (gcp_logging.py lines 75-78): a non-empty
string payload becomes text_payload, a structured payload becomes the payload
field, anything else adds nothing. -/
def payloadFields : PayloadValue → List (String × EField)
  | .null => []
  | .text s => if s ≠ "" then [("text_payload", .str s)] else []
  | .struct fields => [("payload", .strObj fields)]

/-- The dict built for one entry (gcp_logging.py lines 62-84): timestamp
(isoformat or null), severity with the DEFAULT fallback, the resource object,
then the payload selection chain, then http_request when present. -/
def logEntryJson (entry : LogEntry) : List (String × EField) :=
  [ ("timestamp",
      match entry.timestamp with
      | some t => .str (isoformat t)
      | none => .null),
    ("severity", .str
      (match entry.severity with
        | some s => if s ≠ "" then s else "DEFAULT"
        | none => "DEFAULT")),
    ("resource", .resObj
      (entry.resource.map (fun r => r.type))
      (match entry.resource with
        | some r => if r.labels ≠ [] then r.labels else []
        | none => [])) ]
  ++ (if textPayloadTruthy entry then
        [("text_payload", .str (entry.text_payload.getD ""))]
      else payloadFields entry.payload)
  ++ (match entry.http_request with
      | some req => [("http_request", .strObj req)]
      | none => [])

/-- External frontier of _get_client(config): the authenticated Cloud Logging
client; list_entries receives the filter expression and max_results. -/
structure LogClient where
  list_entries : String → Int → List LogEntry

/-- query_logs (gcp_logging.py lines 46-86): run the filter through the client
and serialize the matching entries. -/
def query_logs (client : LogClient) (config : Config) (filter_str : String)
    (limit : Int) : String :=
  renderResults ((client.list_entries filter_str limit).map logEntryJson)

/-- list_log_entries (gcp_logging.py lines 89-114): build the request-log
filter for the function over the last hours_ago hours and delegate to
query_logs.  now is the external clock reading datetime.now(timezone.utc), in
seconds, so past is now minus hours_ago hours. -/
def list_log_entries (client : LogClient) (config : Config) (function_name : String)
    (hours_ago : Int) (limit : Int) (now : Int) : String :=
  let past : Int := now - hours_ago * 3600
  let filter_str :=
    "resource.type=\"cloud_run_revision\" " ++
    ("resource.labels.service_name=\"" ++ function_name ++ "\" ") ++
    ("logName=\"projects/" ++ config.GCP_PROJECT_ID
      ++ "/logs/run.googleapis.com%2Frequests\" ") ++
    ("timestamp>=\"" ++ isoformat past ++ "\"")
  query_logs client config filter_str limit

/-- Restriction to Cloud Run revision resources, as the spec words it. -/
def typeRestriction : String := "resource.type=\"cloud_run_revision\" "

/-- Restriction to the given function's service name, as the spec words it. -/
def serviceRestriction (function_name : String) : String :=
  "resource.labels.service_name=\"" ++ function_name ++ "\" "

/-- Restriction to the project's request log name, as the spec words it. -/
def logNameRestriction (project_id : String) : String :=
  "logName=\"projects/" ++ project_id ++ "/logs/run.googleapis.com%2Frequests\" "

/-- Restriction to timestamps at or after the window start, as the spec words
it. -/
def timeRestriction (past : Int) : String :=
  "timestamp>=\"" ++ isoformat past ++ "\""

/-- The filter the spec describes: the conjunction of the four restrictions. -/
def requestLogFilter (function_name project_id : String) (past : Int) : String :=
  typeRestriction ++ serviceRestriction function_name
    ++ logNameRestriction project_id ++ timeRestriction past

/-- C8: list_log_entries returns exactly query_logs applied to the same client,
config and limit with the constructed filter restricting results to the
cloud_run_revision resource type, the function's service name, the project's
request log name, and timestamps from hours_ago hours before the current
instant: the convenience operation is the composition of the filter builder
with query_logs. -/
theorem list_log_entries_is_filtered_query_logs (client : LogClient) (config : Config)
    (function_name : String) (hours_ago limit now : Int) :
    list_log_entries client config function_name hours_ago limit now
      = query_logs client config
          (requestLogFilter function_name config.GCP_PROJECT_ID (now - hours_ago * 3600))
          limit := rfl

/-- GithubException as commit_file_change observes it: its str(e) rendering. -/
structure GithubException where
  msg : String
deriving Repr, DecidableEq

/-- Repository content object: the attribute commit_file_change reads from the
fetched existing file. -/
structure ContentFile where
  sha : String
deriving Repr, DecidableEq

/-- Result of update_file and create_file: the commit sha the handler reports. -/
structure CommitResult where
  commit_sha : String
deriving Repr, DecidableEq

/-- External frontier of the PyGithub repository object for
commit_file_change: get_contents at a path and ref, update_file with path,
message, content, sha and branch, and create_file with path, message, content
and branch; each call may raise GithubException. -/
structure RepoOps where
  get_contents : String → String → Except GithubException ContentFile
  update_file : String → String → String → String → String → Except GithubException CommitResult
  create_file : String → String → String → String → Except GithubException CommitResult

/-- json.dumps of the success payload commit_file_change returns. -/
def commitSuccessJson (action : String) (commit_sha : String) : String :=
  "\x7b\"success\": true, \"action\": \"" ++ escapeJson action
    ++ "\", \"commit_sha\": \"" ++ escapeJson commit_sha ++ "\"\x7d"

/-- The try block of commit_file_change (github.py lines 100-113): fetch the
existing file, then update it with the fetched sha; a GithubException raised
by either call escapes to the except branch. -/
def updateAttempt (repo : RepoOps) (path content message branch : String) :
    Except GithubException String :=
  match repo.get_contents path branch with
  | .error e => .error e
  | .ok existing =>
    match repo.update_file path message content existing.sha branch with
    | .error e => .error e
    | .ok result => .ok (commitSuccessJson "updated" result.commit_sha)

/-- commit_file_change (github.py lines 84-129): try fetch-and-update; on a
GithubException try create; on a further GithubException return the structured
error payload. -/
def commit_file_change (repo : RepoOps) (path content message branch : String) : String :=
  match updateAttempt repo path content message branch with
  | .ok s => s
  | .error _ =>
    match repo.create_file path message content branch with
    | .ok result => commitSuccessJson "created" result.commit_sha
    | .error e => errorPayload e.msg

/-- Repository oracle on which the file exists (get_contents succeeds) but the
update call fails with a service error while the create call succeeds. -/
def conflictRepo : RepoOps :=
  { get_contents := fun _ _ => .ok { sha := "abc123" }
    update_file := fun _ _ _ _ _ => .error { msg := "409 Conflict" }
    create_file := fun _ _ _ _ => .ok { commit_sha := "def456" } }

/-- Counterexample to C7 as stated: on conflictRepo the file exists on the
branch (fetching it succeeds), yet commit_file_change reports action
"created", so a create is not performed exactly when the file does not
exist. -/
theorem commit_file_change_counterexample :
    (conflictRepo.get_contents "main.py" "fix-branch").isOk = true
  ∧ commit_file_change conflictRepo "main.py" "new code" "fix bug" "fix-branch"
      = commitSuccessJson "created" "def456" :=
  ⟨rfl, rfl⟩

/-- C7 amended: commit_file_change first attempts to fetch the file on the
branch and update it, and reports action "updated" when both succeed; when the
fetch or the update raises a service error it attempts a create, and reports
action "created" when that succeeds; when the create also fails it returns the
structured error payload rather than raising. -/
theorem commit_file_change_amended (repo : RepoOps) (path content message branch : String) :
    (∀ existing result,
        repo.get_contents path branch = .ok existing →
        repo.update_file path message content existing.sha branch = .ok result →
        commit_file_change repo path content message branch
          = commitSuccessJson "updated" result.commit_sha)
  ∧ (∀ e result,
        updateAttempt repo path content message branch = .error e →
        repo.create_file path message content branch = .ok result →
        commit_file_change repo path content message branch
          = commitSuccessJson "created" result.commit_sha)
  ∧ (∀ e e2,
        updateAttempt repo path content message branch = .error e →
        repo.create_file path message content branch = .error e2 →
        commit_file_change repo path content message branch = errorPayload e2.msg) := by
  refine ⟨?_, ?_, ?_⟩
  · intro existing result hget hupd
    simp [commit_file_change, updateAttempt, hget, hupd]
  · intro e result hatt hcre
    simp [commit_file_change, hatt, hcre]
  · intro e e2 hatt hcre
    simp [commit_file_change, hatt, hcre]

/-- Repository oracle on which every operation succeeds. -/
def okRepo : RepoOps :=
  { get_contents := fun _ _ => .ok { sha := "sha0" }
    update_file := fun _ _ _ _ _ => .ok { commit_sha := "sha1" }
    create_file := fun _ _ _ _ => .ok { commit_sha := "sha2" } }

/-- Witness for the amended C7: a successful fetch and update reports
"updated". -/
theorem commit_file_change_amended_witness :
    commit_file_change okRepo "app.py" "fixed code" "fix divide by zero" "fix-branch"
      = commitSuccessJson "updated" "sha1" :=
  (commit_file_change_amended okRepo "app.py" "fixed code" "fix divide by zero"
    "fix-branch").1 { sha := "sha0" } { commit_sha := "sha1" } rfl rfl
